import Mathlib

set_option linter.unusedVariables false

/-!
Shallow embedding of `paramiko/ssh_gss.py` (SSH2 GSS-API / SSPI authentication)
and `paramiko/common.py` (the `MSG_USERAUTH_REQUEST` constant).

Byte strings are modelled as `List Nat` (each element a byte value); Python
`str` values that the code passes around (usernames, service names, auth
method names) are modelled as Lean `String` and converted to bytes with
`strBytes`, matching Python 2 `str.encode` on the ASCII data this module
handles (the module is Python-2 style: `bytes + chr(...)` concatenation).
-/

namespace SshGss

/-- `MSG_USERAUTH_REQUEST` from `paramiko/common.py`:
`MSG_USERAUTH_REQUEST, ... = range(50, 54)`, so its value is 50. -/
def MSG_USERAUTH_REQUEST : Nat := 50

/-- Python 2 `str.encode` on the ASCII strings used by this module:
one byte per character. -/
def strBytes (s : String) : List Nat := s.data.map Char.toNat

/-- `_SSH_GSSAuth._make_uint32`: `struct.pack("!I", integer)`, the 4-byte
big-endian unsigned encoding of `integer` (valid for `integer < 2^32`;
`struct.pack` raises for larger values, the arithmetic below is total). -/
def make_uint32 (integer : Nat) : List Nat :=
  [integer / 16777216 % 256, integer / 65536 % 256, integer / 256 % 256,
   integer % 256]

/-- Big-endian value of a byte list (used to state that `make_uint32` really
is the big-endian encoding). -/
def fromBytesBE (l : List Nat) : Nat := l.foldl (fun a b => a * 256 + b) 0

/-- `_SSH_GSSAuth._ssh_build_mic(session_id, username, service, auth_method)`:
```
mic  = self._make_uint32(len(session_id))
mic += session_id
mic += chr(MSG_USERAUTH_REQUEST)
mic += self._make_uint32(len(username))
mic += str.encode(username)
mic += self._make_uint32(len(service))
mic += str.encode(service)
mic += self._make_uint32(len(auth_method))
mic += str.encode(auth_method)
```
-/
def ssh_build_mic (session_id : List Nat) (username service auth_method : String) :
    List Nat :=
  make_uint32 session_id.length ++ session_id
    ++ [MSG_USERAUTH_REQUEST]
    ++ make_uint32 (strBytes username).length ++ strBytes username
    ++ make_uint32 (strBytes service).length ++ strBytes service
    ++ make_uint32 (strBytes auth_method).length ++ strBytes auth_method

theorem make_uint32_length (n : Nat) : (make_uint32 n).length = 4 := rfl

theorem make_uint32_fromBytesBE (n : Nat) (h : n < 4294967296) :
    fromBytesBE (make_uint32 n) = n := by
  simp only [make_uint32, fromBytesBE, List.foldl]
  omega

theorem ssh_build_mic_length (session_id : List Nat)
    (username service auth_method : String) :
    (ssh_build_mic session_id username service auth_method).length =
      4 + session_id.length + 1 + 4 + (strBytes username).length
        + 4 + (strBytes service).length + 4 + (strBytes auth_method).length := by
  simp only [ssh_build_mic, List.length_append, make_uint32_length,
    List.length_singleton]

theorem ssh_build_mic_msg_byte (session_id : List Nat)
    (username service auth_method : String) :
    (ssh_build_mic session_id username service auth_method)[4 + session_id.length]? =
      some 50 := by
  have hassoc : ssh_build_mic session_id username service auth_method =
      (make_uint32 session_id.length ++ session_id)
        ++ ([MSG_USERAUTH_REQUEST]
            ++ (make_uint32 (strBytes username).length ++ strBytes username
              ++ make_uint32 (strBytes service).length ++ strBytes service
              ++ make_uint32 (strBytes auth_method).length
              ++ strBytes auth_method)) := by
    simp only [ssh_build_mic, List.append_assoc]
  have hlen : (make_uint32 session_id.length ++ session_id).length =
      4 + session_id.length := by
    simp [make_uint32_length]
  rw [hassoc, List.getElem?_append_right (by omega), hlen]
  simp [MSG_USERAUTH_REQUEST]

/-! ### DER object-identifier codec

`ssh_gss.py` delegates DER encoding/decoding of the mechanism OID to
`pyasn1` (`encoder.encode(ObjectIdentifier(...))`, `decoder.decode(...)`).
The inputs this module feeds to the codec are object identifiers with
content shorter than 128 bytes, so short-form lengths suffice.  The decoder
returns the decoded arcs together with the unconsumed remainder, matching
`decoder.decode`'s `(object, rest)` result. -/

/-- Big-endian base-128 digits, fuel-driven (structural recursion so that
proofs can evaluate it; `n + 1` units of fuel always suffice since each
step divides by 128). -/
def base7Core : Nat → Nat → List Nat
  | 0, _ => []
  | fuel + 1, n =>
    if n < 128 then [n] else base7Core fuel (n / 128) ++ [n % 128]

/-- Big-endian base-128 digits of `n` (at least one digit). -/
def base7 (n : Nat) : List Nat := base7Core (n + 1) n

/-- Set the continuation bit (0x80) on every digit but the last. -/
def setCont : List Nat → List Nat
  | [] => []
  | [b] => [b]
  | b :: b2 :: bs => (b + 128) :: setCont (b2 :: bs)

/-- DER encoding of a single OID arc value. -/
def encodeArc (n : Nat) : List Nat := setCont (base7 n)

/-- DER encoding of an OID given as its arc list (tag 0x06, short-form
length, first two arcs packed as `40*a0 + a1`). -/
def derEncodeOidArcs (arcs : List Nat) : Option (List Nat) :=
  match arcs with
  | a0 :: a1 :: rest =>
    let content := encodeArc (a0 * 40 + a1) ++ (rest.map encodeArc).flatten
    if content.length < 128 then some (6 :: content.length :: content)
    else none
  | _ => none

/-- Split a character list on `'.'` (like `"a.b.c".split(".")`). -/
def splitDots : List Char → List (List Char)
  | [] => [[]]
  | c :: rest =>
    if c = '.' then [] :: splitDots rest
    else
      match splitDots rest with
      | g :: gs => (c :: g) :: gs
      | [] => [[c]]

/-- Parse a nonempty all-digit character list as a decimal number. -/
def parseDecimal : List Char → Option Nat
  | [] => none
  | cs =>
    if cs.all Char.isDigit then
      some (cs.foldl (fun a c => a * 10 + (c.toNat - 48)) 0)
    else none

/-- Parse `1.2.840...`-style dotted OID text into its arc list
(`pyasn1.type.univ.ObjectIdentifier` accepts this textual form). -/
def parseOid (s : String) : Option (List Nat) :=
  (splitDots s.data).mapM parseDecimal

/-- Parse DER OID content bytes into raw arc values.  `pend` holds the
partial value of an arc whose continuation bytes are still being read. -/
def parseArcBytes : List Nat → Option Nat → Option (List Nat)
  | [], none => some []
  | [], some _ => none
  | b :: bs, pend =>
    if b < 256 then
      let acc := (pend.getD 0) * 128 + b % 128
      if b < 128 then
        match parseArcBytes bs none with
        | some arcs => some (acc :: arcs)
        | none => none
      else parseArcBytes bs (some acc)
    else none

/-- Split the first raw arc value of a decoded OID into its first two arcs
(the rule used by `pyasn1`). -/
def splitFirstArc (v : Nat) : Nat × Nat :=
  if v < 40 then (0, v) else if v < 80 then (1, v - 40) else (2, v - 80)

/-- DER-decode an object identifier from the front of `bytes`, returning the
arc list and the unconsumed remainder (as `pyasn1.codec.der.decoder.decode`
returns `(object, rest)`).  `none` models a decoding exception. -/
def derDecodeOid (bytes : List Nat) : Option (List Nat × List Nat) :=
  match bytes with
  | 6 :: len :: rest =>
    if len < 128 ∧ 0 < len ∧ len ≤ rest.length then
      match parseArcBytes (rest.take len) none with
      | some (v :: raws) =>
        some ((splitFirstArc v).1 :: (splitFirstArc v).2 :: raws, rest.drop len)
      | some [] => none
      | none => none
    else none
  | _ => none

/-- Join strings with `"."` separators. -/
def dotJoin : List String → String
  | [] => ""
  | [s] => s
  | s :: s2 :: rest => s ++ "." ++ dotJoin (s2 :: rest)

/-- `str()` form of a decoded OID: dot-separated decimal arcs (what
`mech.__str__()` produces for a `pyasn1` `ObjectIdentifier`). -/
def oidToString (arcs : List Nat) : String :=
  dotJoin (arcs.map Nat.repr)

/-- The Kerberos V5 mechanism OID string, `_SSH_GSSAuth._krb5_mech`. -/
def krb5_mech_str : String := "1.2.840.113554.1.2.2"

/-! ### Session state and backend interaction

`_SSH_GSSAuth` instance state.  Backend security-context handles
(`gssapi.InitContext` / `gssapi.AcceptContext` / `sspi.ClientAuth` /
`sspi.ServerAuth` objects) are modelled as `Nat` identifiers drawn from a
per-session counter `next_ctx_id`, so that "creates a new context" versus
"reuses the stored context" is observable.  The backend's behaviour (token
production, established status, sign/verify results) is abstracted as
function parameters of the operations that call into it. -/

/-- A Python exception escaping a method of this module. -/
inductive GssErr where
  /-- `SSHException("Unsupported mechanism OID.")` -/
  | sshExceptionUnsupportedMech
  /-- a `pyasn1` DER decoding error -/
  | decodeError
  /-- `AttributeError`: attribute access on a `None` context handle -/
  | attributeErrorNone
  /-- `TypeError`: `len(None)` / `str.encode(None)` -/
  | typeErrorNone
  /-- an error raised inside the GSS-API / SSPI engine call -/
  | backendError
  /-- `NotImplementedError` -/
  | notImplemented
deriving DecidableEq, Repr

/-- A call into the backend security engine, recorded in order. -/
inductive BEvent where
  /-- creation of a client security context (`gssapi.InitContext` /
  `sspi.ClientAuth`) with the given handle -/
  | initContext (id : Nat)
  /-- creation of a server security context (`gssapi.AcceptContext` /
  `sspi.ServerAuth`) with the given handle -/
  | acceptContext (id : Nat)
  /-- a token-exchange step (`.step` / `.authorize`) on the given handle -/
  | step (id : Nat) (tok : Option (List Nat))
  /-- `.get_mic` / `.sign` of `msg` on the given handle -/
  | sign (id : Nat) (msg : List Nat)
  /-- `.verify_mic` / `.verify` of `msg` on the given handle -/
  | verify (id : Nat) (msg : List Nat)
deriving DecidableEq, Repr

/-- Instance state of `_SSH_GSSAuth` (shared by `_SSH_GSSAPI` and
`_SSH_SSPI`).  `gss_flags` holds the SSPI integer flag bitmask (the GSSAPI
backend's `_gss_flags` tuple is only forwarded to the backend engine and
never inspected, so it is not carried here).  `srv_delegated_cred` models
the backend-owned `delegated_cred` attribute of the server context;
`next_ctx_id` is the fresh-handle supply of the model. -/
structure GssState where
  auth_method : String
  gss_deleg_creds : Bool
  gss_host : Option String
  username : Option String
  session_id : Option (List Nat)
  service : String
  krb5_mech : String
  gss_ctxt : Option Nat
  gss_ctxt_status : Bool
  gss_srv_ctxt : Option Nat
  gss_srv_ctxt_status : Bool
  cc_file : Option (List Nat)
  srv_delegated_cred : Option Nat
  gss_flags : Nat
  next_ctx_id : Nat
deriving DecidableEq, Repr

/-- `sspicon` flag constants (values from the Windows SSPI headers). -/
def ISC_REQ_DELEGATE : Nat := 1

def ISC_REQ_MUTUAL_AUTH : Nat := 2

def ISC_REQ_INTEGRITY : Nat := 65536

/-- `_SSH_GSSAuth.__init__(auth_method, gss_deleg_creds)`. -/
def mkGSSAuth (auth_method : String) (gss_deleg_creds : Bool) : GssState :=
  { auth_method := auth_method
    gss_deleg_creds := gss_deleg_creds
    gss_host := none
    username := none
    session_id := none
    service := "ssh-connection"
    krb5_mech := krb5_mech_str
    gss_ctxt := none
    gss_ctxt_status := false
    gss_srv_ctxt := none
    gss_srv_ctxt_status := false
    cc_file := none
    srv_delegated_cred := none
    gss_flags := 0
    next_ctx_id := 0 }

/-- `_SSH_SSPI.__init__`: the base constructor plus
`self._gss_flags = ISC_REQ_INTEGRITY | ISC_REQ_MUTUAL_AUTH [| ISC_REQ_DELEGATE]`. -/
def mkSSPI (auth_method : String) (gss_deleg_creds : Bool) : GssState :=
  { mkGSSAuth auth_method gss_deleg_creds with
    gss_flags :=
      if gss_deleg_creds then
        ISC_REQ_INTEGRITY ||| ISC_REQ_MUTUAL_AUTH ||| ISC_REQ_DELEGATE
      else ISC_REQ_INTEGRITY ||| ISC_REQ_MUTUAL_AUTH }

/-- Python `str.find`: index of the first occurrence of `pat`, or `-1`. -/
def findSub : List Char → List Char → Option Nat
  | [], pat => if pat = [] then some 0 else none
  | c :: rest, pat =>
    if pat.isPrefixOf (c :: rest) then some 0
    else (findSub rest pat).map (· + 1)

/-- Python `s.find(pat)` as an `Int` (`-1` when absent). -/
def pyFind (s pat : String) : Int :=
  match findSub s.data pat.data with
  | some i => (i : Int)
  | none => -1

/-- `_SSH_GSSAuth.set_service(service)`:
```
if service.find("ssh-"):
    self._service = service
```
(the integer returned by `find` is used directly as the condition, so the
assignment runs whenever the index is nonzero, including `-1`). -/
def set_service (st : GssState) (service : String) : GssState :=
  if pyFind service "ssh-" ≠ 0 then { st with service := service } else st

/-- `_SSH_GSSAuth.set_username(username)`. -/
def set_username (st : GssState) (username : String) : GssState :=
  { st with username := some username }

/-- `_SSH_GSSAuth.ssh_gss_oids(mode="client")`:
```
OIDs = self._make_uint32(1)
krb5_OID = encoder.encode(ObjectIdentifier(self._krb5_mech))
OID_len = self._make_uint32(len(krb5_OID))
if mode == "server":
    return OID_len + krb5_OID
return OIDs + OID_len + krb5_OID
```
`none` models an encoder exception (unreachable for the fixed OID). -/
def ssh_gss_oids (st : GssState) (mode : String) : Option (List Nat) :=
  match (parseOid st.krb5_mech).bind derEncodeOidArcs with
  | none => none
  | some krb5_OID =>
    let OIDs := make_uint32 1
    let OID_len := make_uint32 krb5_OID.length
    if mode = "server" then some (OID_len ++ krb5_OID)
    else some (OIDs ++ OID_len ++ krb5_OID)

/-- `_SSH_GSSAuth.ssh_check_mech(desired_mech)`:
```
mech, __ = decoder.decode(desired_mech)
if mech.__str__() != self._krb5_mech:
    return False
return True
```
-/
def ssh_check_mech (st : GssState) (desired_mech : List Nat) :
    Except GssErr Bool :=
  match derDecodeOid desired_mech with
  | none => .error .decodeError
  | some (arcs, _) =>
    if oidToString arcs ≠ st.krb5_mech then .ok false else .ok true

/-- Result of a stateful method: the backend calls it made, and either the
raised exception together with the instance state at raise time (the Python
object survives the exception), or the instance state and return value. -/
abbrev PyResult (α : Type) := List BEvent × Except (GssErr × GssState) (GssState × α)

/-- The instance state after a call, whether it returned or raised. -/
def stateOf {α : Type} : PyResult α → GssState
  | (_, .error (_, st)) => st
  | (_, .ok (st, _)) => st

/-- The `desired_mech` check inlined in both `ssh_init_sec_context`
implementations:
```
mech, __ = decoder.decode(desired_mech)
if mech.__str__() != self._krb5_mech:
    raise SSHException("Unsupported mechanism OID.")
```
-/
def mechCheck (krb5_mech : String) (desired_mech : Option (List Nat)) :
    Except GssErr Unit :=
  match desired_mech with
  | none => .ok ()
  | some b =>
    match derDecodeOid b with
    | none => .error .decodeError
    | some (arcs, _) =>
      if oidToString arcs ≠ krb5_mech then .error .sshExceptionUnsupportedMech
      else .ok ()

/-- `_SSH_GSSAPI.ssh_init_sec_context(target, desired_mech, username,
recv_token)`.  `stepFn ctxtId tok` abstracts `ctxt.step(tok)` together with
the `established` attribute read afterwards.  The local
`ctx = gssapi.Context(); ctx.flags = self._gss_flags` of the source is a
flags record passed to `InitContext` and has no effect on the session
state. -/
def gssapi_ssh_init_sec_context
    (stepFn : Nat → Option (List Nat) → Option (List Nat) × Bool)
    (st : GssState) (target : String) (desired_mech : Option (List Nat))
    (username : Option String) (recv_token : Option (List Nat)) :
    PyResult (Option (List Nat)) :=
  let st := { st with username := username, gss_host := some target }
  match mechCheck st.krb5_mech desired_mech with
  | .error e => ([], .error (e, st))
  | .ok _ =>
    match recv_token with
    | none =>
      let id := st.next_ctx_id
      let st := { st with gss_ctxt := some id, next_ctx_id := id + 1 }
      let r := stepFn id none
      ([.initContext id, .step id none],
       .ok ({ st with gss_ctxt_status := r.2 }, r.1))
    | some rt =>
      match st.gss_ctxt with
      | none => ([], .error (.attributeErrorNone, st))
      | some c =>
        let r := stepFn c (some rt)
        ([.step c (some rt)], .ok ({ st with gss_ctxt_status := r.2 }, r.1))

/-- `_SSH_GSSAPI.ssh_get_mic(session_id, gss_kex=False)`.  `signFn ctxtId
msg` abstracts `ctxt.get_mic(msg)`. -/
def gssapi_ssh_get_mic (signFn : Nat → List Nat → List Nat) (st : GssState)
    (session_id : List Nat) (gss_kex : Bool) : PyResult (List Nat) :=
  let st := { st with session_id := some session_id }
  if gss_kex then
    -- for key exchange with gssapi-keyex:
    -- mic_token = self._gss_srv_ctxt.get_mic(self._session_id)
    match st.gss_srv_ctxt with
    | none => ([], .error (.attributeErrorNone, st))
    | some c => ([.sign c session_id], .ok (st, signFn c session_id))
  else
    match st.username with
    | none => ([], .error (.typeErrorNone, st))
    | some u =>
      let mic_field := ssh_build_mic session_id u st.service st.auth_method
      match st.gss_ctxt with
      | none => ([], .error (.attributeErrorNone, st))
      | some c => ([.sign c mic_field], .ok (st, signFn c mic_field))

/-- `_SSH_GSSAPI.ssh_accept_sec_context(hostname, recv_token, username=None)`:
```
self._gss_host = hostname
self._username = username
if self._gss_srv_ctxt is None:
    self._gss_srv_ctxt = gssapi.AcceptContext()
token = self._gss_srv_ctxt.step(recv_token)
self._gss_srv_ctxt_status = self._gss_srv_ctxt.established
```
`stepFn ctxtId tok` abstracts `ctxt.step(tok)` plus the `established`
read. -/
def gssapi_ssh_accept_sec_context
    (stepFn : Nat → List Nat → Option (List Nat) × Bool) (st : GssState)
    (hostname : String) (recv_token : List Nat) (username : Option String) :
    PyResult (Option (List Nat)) :=
  let st := { st with gss_host := some hostname, username := username }
  let t :=
    match st.gss_srv_ctxt with
    | none =>
      let id := st.next_ctx_id
      ({ st with gss_srv_ctxt := some id, next_ctx_id := id + 1 }, id,
       [BEvent.acceptContext id])
    | some c => (st, c, ([] : List BEvent))
  let r := stepFn t.2.1 recv_token
  (t.2.2 ++ [.step t.2.1 (some recv_token)],
   .ok ({ t.1 with gss_srv_ctxt_status := r.2 }, r.1))

/-- `_SSH_GSSAPI.ssh_check_mic(mic_token, session_id, username=None)`.
`verifyFn ctxtId msg tok` abstracts `ctxt.verify_mic(msg, tok)`; the `.ok`
value is the integer the source's docstring describes (0 success /
1 failure) and `.error` a raised `GSSError`. -/
def gssapi_ssh_check_mic (verifyFn : Nat → List Nat → List Nat → Except Unit Int)
    (st : GssState) (mic_token session_id : List Nat)
    (username : Option String) : PyResult Int :=
  let st := { st with session_id := some session_id, username := username }
  match username with
  | some u =>
    -- server mode
    let mic_field := ssh_build_mic session_id u st.service st.auth_method
    match st.gss_srv_ctxt with
    | none => ([], .error (.attributeErrorNone, st))
    | some c =>
      ([.verify c mic_field],
       match verifyFn c mic_field mic_token with
       | .error _ => .error (.backendError, st)
       | .ok v => .ok (st, v))
  | none =>
    -- for key exchange with gssapi-keyex (client mode)
    match st.gss_ctxt with
    | none => ([], .error (.attributeErrorNone, st))
    | some c =>
      ([.verify c session_id],
       match verifyFn c session_id mic_token with
       | .error _ => .error (.backendError, st)
       | .ok v => .ok (st, v))

/-- `_SSH_GSSAPI.credentials_delegated`:
```
if self._gss_srv_ctxt.delegated_cred is not None:
    return True
return False
```
-/
def gssapi_credentials_delegated (st : GssState) : Except GssErr Bool :=
  match st.gss_srv_ctxt with
  | none => .error .attributeErrorNone
  | some _ => .ok st.srv_delegated_cred.isSome

/-- `_SSH_GSSAPI.save_client_creds(client_token)`: `raise NotImplementedError`.
It takes no state and returns none: nothing is persisted. -/
def gssapi_save_client_creds (client_token : List Nat) : Except GssErr Unit :=
  .error .notImplemented

/-- `_SSH_SSPI.ssh_init_sec_context(target, desired_mech, username,
recv_token)`.  `authorizeFn ctxtId tok` abstracts
`error, token = ctxt.authorize(tok)` followed by `token[0].Buffer`. -/
def sspi_ssh_init_sec_context (authorizeFn : Nat → Option (List Nat) → Int × List Nat)
    (st : GssState) (target : String) (desired_mech : Option (List Nat))
    (username : Option String) (recv_token : Option (List Nat)) :
    PyResult (Option (List Nat)) :=
  let st := { st with username := username, gss_host := some target }
  match mechCheck st.krb5_mech desired_mech with
  | .error e => ([], .error (e, st))
  | .ok _ =>
    let t :=
      match recv_token with
      | none =>
        let id := st.next_ctx_id
        ({ st with gss_ctxt := some id, next_ctx_id := id + 1 },
         [BEvent.initContext id])
      | some _ => (st, ([] : List BEvent))
    match t.1.gss_ctxt with
    | none => (t.2, .error (.attributeErrorNone, t.1))
    | some c =>
      let r := authorizeFn c recv_token
      if r.1 = 0 then
        (t.2 ++ [.step c recv_token],
         .ok ({ t.1 with gss_ctxt_status := true }, none))
      else (t.2 ++ [.step c recv_token], .ok (t.1, some r.2))

/-- `_SSH_SSPI.ssh_get_mic(session_id, gss_kex=False)`.  `signFn ctxtId msg`
abstracts `ctxt.sign(msg)`. -/
def sspi_ssh_get_mic (signFn : Nat → List Nat → List Nat) (st : GssState)
    (session_id : List Nat) (gss_kex : Bool) : PyResult (List Nat) :=
  let st := { st with session_id := some session_id }
  if gss_kex then
    -- for key exchange with gssapi-keyex:
    -- mic_token = self._gss_srv_ctxt.sign(self._session_id)
    match st.gss_srv_ctxt with
    | none => ([], .error (.attributeErrorNone, st))
    | some c => ([.sign c session_id], .ok (st, signFn c session_id))
  else
    match st.username with
    | none => ([], .error (.typeErrorNone, st))
    | some u =>
      let mic_field := ssh_build_mic session_id u st.service st.auth_method
      match st.gss_ctxt with
      | none => ([], .error (.attributeErrorNone, st))
      | some c => ([.sign c mic_field], .ok (st, signFn c mic_field))

/-- `_SSH_SSPI.ssh_accept_sec_context(hostname, username, recv_token)`:
```
self._gss_host = hostname
self._username = username
targ_name = "host/" + self._gss_host
self._gss_srv_ctxt = sspi.ServerAuth("Kerberos", spn=targ_name)
error, token = self._gss_srv_ctxt.authorize(recv_token)
token = token[0].Buffer
if error == 0:
    self._gss_srv_ctxt_status = True
    token = None
return token
```
Note the unconditional `ServerAuth` construction. -/
def sspi_ssh_accept_sec_context (authorizeFn : Nat → List Nat → Int × List Nat)
    (st : GssState) (hostname : String) (username : Option String)
    (recv_token : List Nat) : PyResult (Option (List Nat)) :=
  let st := { st with gss_host := some hostname, username := username }
  let id := st.next_ctx_id
  let st := { st with gss_srv_ctxt := some id, next_ctx_id := id + 1 }
  let r := authorizeFn id recv_token
  if r.1 = 0 then
    ([.acceptContext id, .step id (some recv_token)],
     .ok ({ st with gss_srv_ctxt_status := true }, none))
  else
    ([.acceptContext id, .step id (some recv_token)], .ok (st, some r.2))

/-- `_SSH_SSPI.ssh_check_mic(mic_token, session_id, username=None)`.
`verifyFn ctxtId msg tok` abstracts `ctxt.verify(msg, tok)` (whose return
value the source then discards: after the branch, `mic_status = 0`
unconditionally).  The shadowing `let`s mirror the source's successive
assignments to `mic_status`. -/
def sspi_ssh_check_mic (verifyFn : Nat → List Nat → List Nat → Except Unit Int)
    (st : GssState) (mic_token session_id : List Nat)
    (username : Option String) : PyResult Int :=
  let st := { st with session_id := some session_id, username := username }
  let _mic_status : Int := 1
  match username with
  | some u =>
    -- server mode
    let mic_field := ssh_build_mic session_id u st.service st.auth_method
    match st.gss_srv_ctxt with
    | none => ([], .error (.attributeErrorNone, st))
    | some c =>
      ([.verify c mic_field],
       match verifyFn c mic_field mic_token with
       | .error _ => .error (.backendError, st)
       | .ok v =>
         let mic_status := v
         let mic_status := 0
         .ok (st, mic_status))
  | none =>
    -- for key exchange with gssapi-keyex (client mode)
    match st.gss_ctxt with
    | none => ([], .error (.attributeErrorNone, st))
    | some c =>
      ([.verify c session_id],
       match verifyFn c session_id mic_token with
       | .error _ => .error (.backendError, st)
       | .ok v =>
         let mic_status := v
         let mic_status := 0
         .ok (st, mic_status))

/-- `_SSH_SSPI.credentials_delegated`:
```
return (
        self._gss_flags & sspicon.ISC_REQ_DELEGATE
        ) and (
        self._gss_srv_ctxt_status or (self._gss_flags)
   )
```
modelled as the Python truthiness of that expression. -/
def sspi_credentials_delegated (st : GssState) : Bool :=
  (st.gss_flags &&& ISC_REQ_DELEGATE != 0)
    && (st.gss_srv_ctxt_status || (st.gss_flags != 0))

/-- `_SSH_SSPI.save_client_creds(client_token)`: `raise NotImplementedError`.
It takes no state and returns none: nothing is persisted. -/
def sspi_save_client_creds (client_token : List Nat) : Except GssErr Unit :=
  .error .notImplemented

/-! ### Claim theorems -/

/-- C1 (amended): `_ssh_build_mic` returns exactly
`uint32(len(session_id)) || session_id || byte 50 || uint32(len(username)) ||
username || uint32(len(service)) || service || uint32(len(auth_method)) ||
auth_method`, so its length is `4+len(session_id)+1+4+len(username)+
4+len(service)+4+len(auth_method)` and the byte at offset
`4+len(session_id)` is 50; for session_id of 32 zero bytes, username
"alice", service "ssh-connection", auth_method "gssapi-with-mic" the output
is 83 bytes (`len("gssapi-with-mic") = 15`) with byte 36 equal to 0x32. -/
theorem C1_ssh_build_mic_layout (session_id : List Nat)
    (username service auth_method : String) :
    ssh_build_mic session_id username service auth_method =
      make_uint32 session_id.length ++ session_id ++ [50]
        ++ make_uint32 (strBytes username).length ++ strBytes username
        ++ make_uint32 (strBytes service).length ++ strBytes service
        ++ make_uint32 (strBytes auth_method).length ++ strBytes auth_method
    ∧ (ssh_build_mic session_id username service auth_method).length =
        4 + session_id.length + 1 + 4 + (strBytes username).length
          + 4 + (strBytes service).length + 4 + (strBytes auth_method).length
    ∧ (ssh_build_mic session_id username service
        auth_method)[4 + session_id.length]? = some 50
    ∧ (ssh_build_mic (List.replicate 32 0) "alice" "ssh-connection"
        "gssapi-with-mic").length = 83
    ∧ (ssh_build_mic (List.replicate 32 0) "alice" "ssh-connection"
        "gssapi-with-mic")[36]? = some 50 :=
  ⟨rfl, ssh_build_mic_length session_id username service auth_method,
   ssh_build_mic_msg_byte session_id username service auth_method,
   by decide, by decide⟩

/-- C1: the claim's concrete instance asserts an 84-byte output, but
`len("gssapi-with-mic") = 15` (not 16), so the MIC for the claim's inputs
is 83 bytes long. -/
theorem C1_counterexample :
    ¬ (ssh_build_mic (List.replicate 32 0) "alice" "ssh-connection"
        "gssapi-with-mic").length = 84 := by decide

/-- C3: code behaviour of `set_service` at the spec's own test inputs.
`set_service("ssh-foo")` leaves `_service` unchanged (because
`"ssh-foo".find("ssh-") == 0` is falsy) and `set_service("not-ssh-prefixed")`
overwrites it (`find` returns 4, which is truthy) — the opposite of the
claim on both inputs. -/
theorem C3_set_service_code_behaviour :
    (set_service (mkGSSAuth "gssapi-with-mic" true) "ssh-foo").service =
      "ssh-connection"
    ∧ (set_service (mkGSSAuth "gssapi-with-mic" true)
        "not-ssh-prefixed").service = "not-ssh-prefixed"
    ∧ (∀ st : GssState, ∀ name : String,
        (set_service st name).service =
          if pyFind name "ssh-" ≠ 0 then name else st.service) := by
  refine ⟨by decide, by decide, ?_⟩
  intro st name
  unfold set_service
  by_cases h : pyFind name "ssh-" ≠ 0 <;> simp [h]

/-- C6: for every input byte string, `ssh_check_mech` returns `True` iff the
input DER-decodes to an object identifier whose string form is exactly
`"1.2.840.113554.1.2.2"`; for every other decoded OID it returns `False`. -/
theorem C6_ssh_check_mech_iff (st : GssState) (hk : st.krb5_mech = krb5_mech_str)
    (desired_mech : List Nat) :
    (ssh_check_mech st desired_mech = .ok true ↔
      ∃ arcs rest, derDecodeOid desired_mech = some (arcs, rest)
        ∧ oidToString arcs = krb5_mech_str)
    ∧ (∀ arcs rest, derDecodeOid desired_mech = some (arcs, rest) →
        oidToString arcs ≠ krb5_mech_str →
        ssh_check_mech st desired_mech = .ok false) := by
  constructor
  · constructor
    · intro hok
      rcases hd : derDecodeOid desired_mech with _ | ⟨arcs, rest⟩
      · simp [ssh_check_mech, hd] at hok
      · by_cases he : oidToString arcs = krb5_mech_str
        · exact ⟨arcs, rest, rfl, he⟩
        · simp [ssh_check_mech, hd, hk, he] at hok
    · rintro ⟨arcs, rest, hd, he⟩
      simp [ssh_check_mech, hd, hk, he]
  · intro arcs rest hd hne
    simp [ssh_check_mech, hd, hk, hne]

/-- C6 witness: the Kerberos V5 DER OID is accepted, a neighbouring OID
(`1.2.840.113554.1.2.1`) is rejected. -/
theorem C6_witness :
    ssh_check_mech (mkGSSAuth "gssapi-with-mic" true)
      [6, 9, 42, 134, 72, 134, 247, 18, 1, 2, 2] = .ok true
    ∧ ssh_check_mech (mkGSSAuth "gssapi-with-mic" true)
      [6, 9, 42, 134, 72, 134, 247, 18, 1, 2, 1] = .ok false :=
  ⟨(C6_ssh_check_mech_iff (mkGSSAuth "gssapi-with-mic" true) rfl
      [6, 9, 42, 134, 72, 134, 247, 18, 1, 2, 2]).1.mpr
     ⟨[1, 2, 840, 113554, 1, 2, 2], [], by decide, by decide⟩,
   (C6_ssh_check_mech_iff (mkGSSAuth "gssapi-with-mic" true) rfl
      [6, 9, 42, 134, 72, 134, 247, 18, 1, 2, 1]).2
     [1, 2, 840, 113554, 1, 2, 1] [] (by decide) (by decide)⟩

/-- C7: `ssh_gss_oids` with mode `"client"` returns
`uint32(1) || uint32(len(DER_OID)) || DER_OID` and with mode `"server"`
returns `uint32(len(DER_OID)) || DER_OID` (no leading count), where
`DER_OID` is the 11-byte DER encoding of the Kerberos V5 OID; `uint32`
encodes any `n < 2^32` as 4 big-endian unsigned bytes; and the DER-OID
segment of the client output is accepted by `ssh_check_mech`. -/
theorem C7_ssh_gss_oids (auth_method : String) (gss_deleg_creds : Bool)
    (n : Nat) (hn : n < 4294967296) :
    ssh_gss_oids (mkGSSAuth auth_method gss_deleg_creds) "client" =
      some (make_uint32 1 ++ make_uint32 11
        ++ [6, 9, 42, 134, 72, 134, 247, 18, 1, 2, 2])
    ∧ ssh_gss_oids (mkGSSAuth auth_method gss_deleg_creds) "server" =
      some (make_uint32 11 ++ [6, 9, 42, 134, 72, 134, 247, 18, 1, 2, 2])
    ∧ ssh_check_mech (mkGSSAuth auth_method gss_deleg_creds)
        [6, 9, 42, 134, 72, 134, 247, 18, 1, 2, 2] = .ok true
    ∧ (make_uint32 n).length = 4
    ∧ fromBytesBE (make_uint32 n) = n :=
  ⟨rfl, rfl, rfl, make_uint32_length n, make_uint32_fromBytesBE n hn⟩

/-- C7 witness at `n = 11` (the DER OID length actually emitted). -/
theorem C7_witness :
    ssh_gss_oids (mkGSSAuth "gssapi-with-mic" true) "client" =
      some [0, 0, 0, 1, 0, 0, 0, 11, 6, 9, 42, 134, 72, 134, 247, 18, 1, 2, 2]
    ∧ fromBytesBE (make_uint32 11) = 11 := by
  obtain ⟨h1, h2, h3, h4, h5⟩ :=
    C7_ssh_gss_oids "gssapi-with-mic" true 11 (by decide)
  exact ⟨by rw [h1]; rfl, h5⟩

/-- C4: `credentials_delegated` in the GSSAPI backend is true iff the
server-side context holds a non-null `delegated_cred`; in the SSPI backend
it is truthy iff `gss_deleg_creds` was set at construction, regardless of
the established status or of any delegated-credential object. -/
theorem C4_credentials_delegated :
    (∀ st : GssState, ∀ c : Nat, st.gss_srv_ctxt = some c →
      gssapi_credentials_delegated st = .ok st.srv_delegated_cred.isSome
      ∧ (gssapi_credentials_delegated st = .ok true ↔
          st.srv_delegated_cred ≠ none))
    ∧ (∀ auth_method : String, ∀ gss_deleg_creds status : Bool,
        ∀ srv_ctxt cred : Option Nat,
        sspi_credentials_delegated
          { mkSSPI auth_method gss_deleg_creds with
            gss_srv_ctxt := srv_ctxt, gss_srv_ctxt_status := status,
            srv_delegated_cred := cred } = gss_deleg_creds) := by
  constructor
  · intro st c hc
    unfold gssapi_credentials_delegated
    rw [hc]
    refine ⟨rfl, ?_⟩
    simp [Option.isSome_iff_ne_none]
  · intro am dl status srv_ctxt cred
    have h1 : (65536 ||| 2 ||| 1 : Nat) &&& 1 = 1 := by decide
    have h2 : (65536 ||| 2 : Nat) &&& 1 = 0 := by decide
    have h3 : ((65536 ||| 2 ||| 1 : Nat) != 0) = true := by decide
    cases dl <;>
      simp [sspi_credentials_delegated, mkSSPI, mkGSSAuth, ISC_REQ_DELEGATE,
        ISC_REQ_MUTUAL_AUTH, ISC_REQ_INTEGRITY, h1, h2, h3]

/-- C4 witness: a server context with a delegated credential reports true;
an SSPI session constructed with `gss_deleg_creds = True` reports true even
with no established context and no credential object, and one constructed
with `gss_deleg_creds = False` reports false even when established. -/
theorem C4_witness :
    gssapi_credentials_delegated
      { mkGSSAuth "gssapi-with-mic" true with
        gss_srv_ctxt := some 0, srv_delegated_cred := some 7 } = .ok true
    ∧ sspi_credentials_delegated
      { mkSSPI "gssapi-with-mic" true with
        gss_srv_ctxt := none, gss_srv_ctxt_status := false,
        srv_delegated_cred := none } = true
    ∧ sspi_credentials_delegated
      { mkSSPI "gssapi-with-mic" false with
        gss_srv_ctxt := some 0, gss_srv_ctxt_status := true,
        srv_delegated_cred := some 7 } = false := by
  refine ⟨?_, ?_, ?_⟩
  · exact (C4_credentials_delegated.1 _ 0 rfl).2.mpr (by decide)
  · exact C4_credentials_delegated.2 "gssapi-with-mic" true false none none
  · exact C4_credentials_delegated.2 "gssapi-with-mic" false true (some 0)
      (some 7)

/-- C8: in both backends `save_client_creds` raises `NotImplementedError`
for every input (including empty bytes); it takes no session state and
returns nothing, so nothing is persisted. -/
theorem C8_save_client_creds_not_implemented (client_token : List Nat) :
    gssapi_save_client_creds client_token = .error .notImplemented
    ∧ sspi_save_client_creds client_token = .error .notImplemented :=
  ⟨rfl, rfl⟩

/-- C2: in the SSPI backend, whenever the underlying `verify` call returns
without raising (with any result `v`), `ssh_check_mic` returns MIC status 0:
the verify result is unconditionally overwritten and never propagated.
Both the server-mode branch (username supplied) and the key-exchange branch
(username absent) are covered. -/
theorem C2_sspi_check_mic_always_zero
    (verifyFn : Nat → List Nat → List Nat → Except Unit Int) :
    (∀ st : GssState, ∀ u : String, ∀ c : Nat, ∀ v : Int,
      ∀ mic_token session_id : List Nat,
      st.gss_srv_ctxt = some c →
      verifyFn c (ssh_build_mic session_id u st.service st.auth_method)
          mic_token = .ok v →
      sspi_ssh_check_mic verifyFn st mic_token session_id (some u) =
        ([.verify c (ssh_build_mic session_id u st.service st.auth_method)],
         .ok ({ st with session_id := some session_id,
                        username := some u }, 0)))
    ∧ (∀ st : GssState, ∀ c : Nat, ∀ v : Int,
        ∀ mic_token session_id : List Nat,
        st.gss_ctxt = some c →
        verifyFn c session_id mic_token = .ok v →
        sspi_ssh_check_mic verifyFn st mic_token session_id none =
          ([.verify c session_id],
           .ok ({ st with session_id := some session_id,
                          username := none }, 0))) := by
  constructor
  · intro st u c v mic_token session_id hc hv
    simp [sspi_ssh_check_mic, hc, hv]
  · intro st c v mic_token session_id hc hv
    simp [sspi_ssh_check_mic, hc, hv]

/-- C2 witness: a `verify` that reports failure (result 1) without raising
still yields MIC status 0. -/
theorem C2_witness :
    sspi_ssh_check_mic (fun _ _ _ => .ok 1)
      { mkSSPI "gssapi-with-mic" true with gss_srv_ctxt := some 0 }
      [9, 9] [1, 2, 3] (some "alice") =
      ([.verify 0 (ssh_build_mic [1, 2, 3] "alice" "ssh-connection"
          "gssapi-with-mic")],
       .ok ({ mkSSPI "gssapi-with-mic" true with gss_srv_ctxt := some 0,
                                                 session_id := some [1, 2, 3], username := some "alice" }, 0)) :=
  (C2_sspi_check_mic_always_zero (fun _ _ _ => .ok 1)).1
    { mkSSPI "gssapi-with-mic" true with gss_srv_ctxt := some 0 }
    "alice" 0 1 [9, 9] [1, 2, 3] rfl rfl

/-- C5 (amended): in the GSSAPI backend, `ssh_accept_sec_context` creates
the acceptor context only when the stored handle is `None` and afterwards
steps the same stored handle; in the SSPI backend every call constructs a
fresh `ServerAuth` context, replacing the stored handle. -/
theorem C5_accept_context_creation :
    (∀ stepFn : Nat → List Nat → Option (List Nat) × Bool, ∀ st : GssState,
      ∀ hostname : String, ∀ recv_token : List Nat, ∀ username : Option String,
      (st.gss_srv_ctxt = none →
        gssapi_ssh_accept_sec_context stepFn st hostname recv_token username =
          ([.acceptContext st.next_ctx_id,
            .step st.next_ctx_id (some recv_token)],
           .ok ({ st with gss_host := some hostname, username := username,
                          gss_srv_ctxt := some st.next_ctx_id,
                          next_ctx_id := st.next_ctx_id + 1,
                          gss_srv_ctxt_status := (stepFn st.next_ctx_id recv_token).2 },
                (stepFn st.next_ctx_id recv_token).1)))
      ∧ (∀ c : Nat, st.gss_srv_ctxt = some c →
        gssapi_ssh_accept_sec_context stepFn st hostname recv_token username =
          ([.step c (some recv_token)],
           .ok ({ st with gss_host := some hostname, username := username,
                          gss_srv_ctxt_status := (stepFn c recv_token).2 },
                (stepFn c recv_token).1))))
    ∧ (∀ authorizeFn : Nat → List Nat → Int × List Nat, ∀ st : GssState,
        ∀ hostname : String, ∀ username : Option String,
        ∀ recv_token : List Nat,
        (stateOf (sspi_ssh_accept_sec_context authorizeFn st hostname
          username recv_token)).gss_srv_ctxt = some st.next_ctx_id
        ∧ (stateOf (sspi_ssh_accept_sec_context authorizeFn st hostname
            username recv_token)).next_ctx_id = st.next_ctx_id + 1
        ∧ (sspi_ssh_accept_sec_context authorizeFn st hostname username
            recv_token).1 =
          [.acceptContext st.next_ctx_id,
           .step st.next_ctx_id (some recv_token)]) := by
  constructor
  · intro stepFn st hostname recv_token username
    constructor
    · intro h
      simp [gssapi_ssh_accept_sec_context, h]
    · intro c h
      simp [gssapi_ssh_accept_sec_context, h]
  · intro authorizeFn st hostname username recv_token
    by_cases h : (authorizeFn st.next_ctx_id recv_token).1 = 0 <;>
      simp [sspi_ssh_accept_sec_context, stateOf, h]

/-- C5: the claim fails on the SSPI backend: a second
`ssh_accept_sec_context` call replaces the stored server context (handle 0)
with a newly created one (handle 1) instead of stepping it. -/
theorem C5_counterexample :
    (stateOf (sspi_ssh_accept_sec_context (fun _ _ => (1, []))
      (mkSSPI "gssapi-with-mic" true) "srv" (some "alice") [7])).gss_srv_ctxt
      = some 0
    ∧ (stateOf (sspi_ssh_accept_sec_context (fun _ _ => (1, []))
        (stateOf (sspi_ssh_accept_sec_context (fun _ _ => (1, []))
          (mkSSPI "gssapi-with-mic" true) "srv" (some "alice") [7]))
        "srv" (some "alice") [8])).gss_srv_ctxt = some 1
    ∧ (stateOf (sspi_ssh_accept_sec_context (fun _ _ => (1, []))
        (stateOf (sspi_ssh_accept_sec_context (fun _ _ => (1, []))
          (mkSSPI "gssapi-with-mic" true) "srv" (some "alice") [7]))
        "srv" (some "alice") [8])).gss_srv_ctxt ≠
      (stateOf (sspi_ssh_accept_sec_context (fun _ _ => (1, []))
        (mkSSPI "gssapi-with-mic" true) "srv" (some "alice") [7])).gss_srv_ctxt := by
  refine ⟨rfl, rfl, ?_⟩
  decide

/-- C5 witness: the GSSAPI backend really does reuse a stored handle. -/
theorem C5_witness :
    gssapi_ssh_accept_sec_context (fun _ _ => (none, true))
      { mkGSSAuth "gssapi-with-mic" true with gss_srv_ctxt := some 4,
                                              next_ctx_id := 5 } "srv" [7] (some "alice") =
      ([.step 4 (some [7])],
       .ok ({ mkGSSAuth "gssapi-with-mic" true with gss_srv_ctxt := some 4,
                                                    next_ctx_id := 5, gss_host := some "srv",
                                                    username := some "alice", gss_srv_ctxt_status := true },
            none)) :=
  (C5_accept_context_creation.1 (fun _ _ => (none, true))
    { mkGSSAuth "gssapi-with-mic" true with gss_srv_ctxt := some 4,
                                            next_ctx_id := 5 } "srv" [7] (some "alice")).2 4 rfl

/-- C9: in both backends, `ssh_init_sec_context` called with a
`desired_mech` that DER-decodes to an OID other than the Kerberos V5 OID
raises `SSHException("Unsupported mechanism OID.")` with no backend call
made (empty event trace) and both stored context handles unchanged. -/
theorem C9_init_rejects_unsupported_mech (st : GssState)
    (hk : st.krb5_mech = krb5_mech_str) (target : String)
    (username : Option String) (recv_token : Option (List Nat))
    (mech : List Nat) (arcs rest : List Nat)
    (hd : derDecodeOid mech = some (arcs, rest))
    (hne : oidToString arcs ≠ krb5_mech_str) :
    (∀ stepFn : Nat → Option (List Nat) → Option (List Nat) × Bool,
      gssapi_ssh_init_sec_context stepFn st target (some mech) username
        recv_token =
      ([], .error (.sshExceptionUnsupportedMech,
        { st with username := username, gss_host := some target })))
    ∧ (∀ authorizeFn : Nat → Option (List Nat) → Int × List Nat,
        sspi_ssh_init_sec_context authorizeFn st target (some mech) username
          recv_token =
        ([], .error (.sshExceptionUnsupportedMech,
          { st with username := username, gss_host := some target })))
    ∧ ({ st with username := username, gss_host := some target }).gss_ctxt
        = st.gss_ctxt
    ∧ ({ st with username := username,
                 gss_host := some target }).gss_srv_ctxt = st.gss_srv_ctxt := by
  refine ⟨?_, ?_, rfl, rfl⟩
  · intro stepFn
    simp [gssapi_ssh_init_sec_context, mechCheck, hd, hk, hne]
  · intro authorizeFn
    simp [sspi_ssh_init_sec_context, mechCheck, hd, hk, hne]

/-- C9 witness: the neighbouring OID `1.2.840.113554.1.2.1` is rejected by
both backends before any backend call. -/
theorem C9_witness :
    gssapi_ssh_init_sec_context (fun _ _ => (none, false))
      (mkGSSAuth "gssapi-with-mic" true) "host"
      (some [6, 9, 42, 134, 72, 134, 247, 18, 1, 2, 1]) (some "alice") none =
      ([], .error (.sshExceptionUnsupportedMech,
        { mkGSSAuth "gssapi-with-mic" true with username := some "alice",
                                                gss_host := some "host" }))
    ∧ sspi_ssh_init_sec_context (fun _ _ => (0, []))
      (mkSSPI "gssapi-with-mic" true) "host"
      (some [6, 9, 42, 134, 72, 134, 247, 18, 1, 2, 1]) (some "alice") none =
      ([], .error (.sshExceptionUnsupportedMech,
        { mkSSPI "gssapi-with-mic" true with username := some "alice",
                                             gss_host := some "host" })) :=
  ⟨(C9_init_rejects_unsupported_mech (mkGSSAuth "gssapi-with-mic" true) rfl
      "host" (some "alice") none [6, 9, 42, 134, 72, 134, 247, 18, 1, 2, 1]
      [1, 2, 840, 113554, 1, 2, 1] [] (by decide) (by decide)).1
    (fun _ _ => (none, false)),
   (C9_init_rejects_unsupported_mech (mkSSPI "gssapi-with-mic" true) rfl
      "host" (some "alice") none [6, 9, 42, 134, 72, 134, 247, 18, 1, 2, 1]
      [1, 2, 840, 113554, 1, 2, 1] [] (by decide) (by decide)).2.1
    (fun _ _ => (0, []))⟩

/-- C10: in both backends the key-exchange branch of `ssh_get_mic` signs the
raw session id with the server-side handle, the key-exchange branch of
`ssh_check_mic` (username absent) verifies with the client-side handle, a
null server handle makes the key-exchange `ssh_get_mic` fail, and
`ssh_init_sec_context` never populates the server handle — so a session
driven only through client-role init has `gss_srv_ctxt = None` and its
key-exchange `ssh_get_mic` raises. -/
theorem C10_kex_mic_context_roles :
    (∀ signFn : Nat → List Nat → List Nat, ∀ st : GssState,
      ∀ session_id : List Nat, ∀ c : Nat, st.gss_srv_ctxt = some c →
      gssapi_ssh_get_mic signFn st session_id true =
        ([.sign c session_id],
         .ok ({ st with session_id := some session_id }, signFn c session_id))
      ∧ sspi_ssh_get_mic signFn st session_id true =
        ([.sign c session_id],
         .ok ({ st with session_id := some session_id }, signFn c session_id)))
    ∧ (∀ verifyFn : Nat → List Nat → List Nat → Except Unit Int,
        ∀ st : GssState, ∀ mic_token session_id : List Nat, ∀ c : Nat,
        st.gss_ctxt = some c →
        (gssapi_ssh_check_mic verifyFn st mic_token session_id none).1 =
          [.verify c session_id]
        ∧ (sspi_ssh_check_mic verifyFn st mic_token session_id none).1 =
          [.verify c session_id])
    ∧ (∀ signFn : Nat → List Nat → List Nat, ∀ st : GssState,
        ∀ session_id : List Nat, st.gss_srv_ctxt = none →
        gssapi_ssh_get_mic signFn st session_id true =
          ([], .error (.attributeErrorNone,
            { st with session_id := some session_id }))
        ∧ sspi_ssh_get_mic signFn st session_id true =
          ([], .error (.attributeErrorNone,
            { st with session_id := some session_id })))
    ∧ (∀ stepFn : Nat → Option (List Nat) → Option (List Nat) × Bool,
        ∀ st : GssState, ∀ target : String, ∀ desired_mech,
        ∀ username : Option String, ∀ recv_token,
        (stateOf (gssapi_ssh_init_sec_context stepFn st target desired_mech
          username recv_token)).gss_srv_ctxt = st.gss_srv_ctxt)
    ∧ (∀ authorizeFn : Nat → Option (List Nat) → Int × List Nat,
        ∀ st : GssState, ∀ target : String, ∀ desired_mech,
        ∀ username : Option String, ∀ recv_token,
        (stateOf (sspi_ssh_init_sec_context authorizeFn st target
          desired_mech username recv_token)).gss_srv_ctxt =
          st.gss_srv_ctxt) := by
  refine ⟨?_, ?_, ?_, ?_, ?_⟩
  · intro signFn st session_id c h
    constructor <;> simp [gssapi_ssh_get_mic, sspi_ssh_get_mic, h]
  · intro verifyFn st mic_token session_id c h
    constructor <;> simp [gssapi_ssh_check_mic, sspi_ssh_check_mic, h]
  · intro signFn st session_id h
    constructor <;> simp [gssapi_ssh_get_mic, sspi_ssh_get_mic, h]
  · intro stepFn st target desired_mech username recv_token
    cases hm : mechCheck st.krb5_mech desired_mech with
    | error e => simp [gssapi_ssh_init_sec_context, stateOf, hm]
    | ok u =>
      cases recv_token with
      | none => simp [gssapi_ssh_init_sec_context, stateOf, hm]
      | some rt =>
        cases hc : st.gss_ctxt with
        | none => simp [gssapi_ssh_init_sec_context, stateOf, hm, hc]
        | some c => simp [gssapi_ssh_init_sec_context, stateOf, hm, hc]
  · intro authorizeFn st target desired_mech username recv_token
    cases hm : mechCheck st.krb5_mech desired_mech with
    | error e => simp [sspi_ssh_init_sec_context, stateOf, hm]
    | ok u =>
      cases recv_token with
      | none =>
        by_cases ha : (authorizeFn st.next_ctx_id none).1 = 0 <;>
          simp [sspi_ssh_init_sec_context, stateOf, hm, ha]
      | some rt =>
        cases hc : st.gss_ctxt with
        | none => simp [sspi_ssh_init_sec_context, stateOf, hm, hc]
        | some c =>
          by_cases ha : (authorizeFn c (some rt)).1 = 0 <;>
            simp [sspi_ssh_init_sec_context, stateOf, hm, hc, ha]

/-- C10 witness: with a server handle 4 present, key-exchange `ssh_get_mic`
signs with handle 4; with client handle 3, the key-exchange
`ssh_check_mic` verifies with handle 3; with no server handle,
key-exchange `ssh_get_mic` raises. -/
theorem C10_witness :
    gssapi_ssh_get_mic (fun _ m => m)
      { mkGSSAuth "gssapi-with-mic" true with gss_srv_ctxt := some 4 }
      [1, 2] true =
      ([.sign 4 [1, 2]],
       .ok ({ mkGSSAuth "gssapi-with-mic" true with gss_srv_ctxt := some 4,
                                                    session_id := some [1, 2] }, [1, 2]))
    ∧ (gssapi_ssh_check_mic (fun _ _ _ => .ok 0)
        { mkGSSAuth "gssapi-with-mic" true with gss_ctxt := some 3 }
        [9] [1, 2] none).1 = [.verify 3 [1, 2]]
    ∧ gssapi_ssh_get_mic (fun _ m => m) (mkGSSAuth "gssapi-with-mic" true)
        [1, 2] true =
      ([], .error (.attributeErrorNone,
        { mkGSSAuth "gssapi-with-mic" true with session_id := some [1, 2] })) :=
  ⟨(C10_kex_mic_context_roles.1 (fun _ m => m)
      { mkGSSAuth "gssapi-with-mic" true with gss_srv_ctxt := some 4 }
      [1, 2] 4 rfl).1,
   (C10_kex_mic_context_roles.2.1 (fun _ _ _ => .ok 0)
      { mkGSSAuth "gssapi-with-mic" true with gss_ctxt := some 3 }
      [9] [1, 2] 3 rfl).1,
   (C10_kex_mic_context_roles.2.2.1 (fun _ m => m)
      (mkGSSAuth "gssapi-with-mic" true) [1, 2] rfl).1⟩

end SshGss
